import Mathlib

/-!
Verification development for the peppergo LLM gateway.

The definitions below are a shallow embedding of the Go sources:
* `OpenRouterProvider.Generate` and `isValidationError` from
  `internal/provider` (retry / rate-limit discipline),
* the proxy `Service` registry (`RegisterProvider`, `GetProvider`),
* the SSE streaming handler (`handleStreamChat`) from `internal/api`,
* the `MockProvider.StreamChat` chunking used by the proxy test suite,
* the stream-producer channel traces of `OpenRouterProvider.StreamChat`
  and `Service.StreamChat`.

Machine integers are modelled as `Int`/`Nat` (no arithmetic near overflow
occurs in the modelled code), Go `float64` option fields as `Rat` (the code
only compares them against 0 and 1, it performs no float arithmetic), and
fallible Go functions as `Except String` values carrying the exact
`fmt.Errorf` message text.  Effects that the claims count (backend request
attempts, rate-limiter token acquisitions, channel events) are made explicit
as result fields or event traces.
-/

namespace PepperGo

/-- Usage mirrors `types.Usage` (pkg/types/agent.go). -/
structure Usage where
  promptTokens : Int
  completionTokens : Int
  totalTokens : Int
deriving DecidableEq, Repr

/-- Metadata values: Go stores `map[string]interface{}`; the provider only
ever type-asserts entries to `int`, so a value is either an int or opaque. -/
inductive MetaVal where
  | int (i : Int)
  | other
deriving DecidableEq, Repr

/-- Response mirrors `types.Response` (unnamed/part_001): content, usage,
timestamp and finish reason.  The `Metadata` map is never read by the
modelled code paths and is omitted. -/
structure Response where
  content : String
  usage : Usage
  timestamp : Int
  finishReason : String
deriving DecidableEq, Repr

/-- ExecuteOptions mirrors `types.ExecuteOptions` (unnamed/part_001).
Float fields appear as `Rat`; `Metadata` as an optional association list
(first binding wins, matching the overwrite-on-insert map semantics). -/
structure ExecuteOptions where
  temperature : Rat
  maxTokens : Int
  stream : Bool
  model : String
  topP : Rat
  frequencyPenalty : Rat
  presencePenalty : Rat
  stop : List String
  metadata : Option (List (String × MetaVal))
deriving DecidableEq, Repr

/-- ExecuteOption is a functional option mutating `ExecuteOptions`. -/
def ExecuteOption : Type := ExecuteOptions → ExecuteOptions

/-- WithRetries (unnamed/part_001): stores `retries` in the metadata map,
creating the map when it is nil. -/
def withRetries (retries : Int) : ExecuteOption :=
  fun o =>
    match o.metadata with
    | none => { o with metadata := some [("retries", MetaVal.int retries)] }
    | some m => { o with metadata := some (("retries", MetaVal.int retries) :: m) }

/-- WithTemperature (pkg/types/agent.go). -/
def withTemperature (temp : Rat) : ExecuteOption :=
  fun o => { o with temperature := temp }

/-- WithMaxTokens (pkg/types/agent.go). -/
def withMaxTokens (tokens : Int) : ExecuteOption :=
  fun o => { o with maxTokens := tokens }

/-- OpenRouterConfig (unnamed/part_007): static provider configuration.
`rateLimiter` records whether `RateLimiter` is non-nil. -/
structure OpenRouterConfig where
  apiKey : String
  model : String
  maxTokens : Int
  temperature : Rat
  rateLimiter : Bool
deriving DecidableEq, Repr

/-- Whether `pat` occurs at the head of `s` (character-list comparison). -/
def listStartsWith : List Char → List Char → Bool
  | _, [] => true
  | [], _ :: _ => false
  | a :: as, b :: bs => a = b && listStartsWith as bs

/-- Whether `pat` occurs contiguously anywhere in `s`. -/
def listContainsSeq : List Char → List Char → Bool
  | [], pat => pat.isEmpty
  | c :: rest, pat => listStartsWith (c :: rest) pat || listContainsSeq rest pat

/-- Go `strings.Contains`, expressed on character lists. -/
def containsSubstr (s sub : String) : Bool :=
  listContainsSeq s.data sub.data

/-- isValidationError (unnamed/part_007 line 527): an error is
validation-class iff its message contains `invalid` or `empty prompt`. -/
def isValidationError (errMsg : String) : Bool :=
  containsSubstr errMsg "invalid" || containsSubstr errMsg "empty prompt"

/-- Message text of `fmt.Errorf("all attempts failed: %w", lastErr)`;
with a nil `lastErr` (a retry budget of zero) Go renders the verb as
`%!w(<nil>)`. -/
def allAttemptsFailedMsg (lastErr : Option String) : String :=
  match lastErr with
  | some e => "all attempts failed: " ++ e
  | none => "all attempts failed: %!w(<nil>)"

/-- Retry loop of `OpenRouterProvider.Generate` (unnamed/part_007 lines
450-472).  `backend j` is the outcome of the `makeRequest` call of attempt
`j`; `ctxCancelled j` is whether `ctx.Err() != nil` when checked after a
failed attempt `j`.  `i` is the index of the next attempt, `rem` the
remaining budget, `lastErr` the last recorded error.  Returns the final
result paired with the number of backend attempts performed. -/
def retryLoop (backend : Nat → Except String Response) (ctxCancelled : Nat → Bool) :
    Nat → Nat → Option String → Except String Response × Nat
  | _, 0, lastErr => (Except.error (allAttemptsFailedMsg lastErr), 0)
  | i, rem + 1, _ =>
    match backend i with
    | Except.ok r => (Except.ok r, 1)
    | Except.error e =>
      if ctxCancelled i || isValidationError e then
        (Except.error e, 1)
      else
        let p := retryLoop backend ctxCancelled (i + 1) rem (some e)
        (p.1, p.2 + 1)

/-- Default options built from the provider configuration
(unnamed/part_007 lines 416-420). -/
def defaultOptions (cfg : OpenRouterConfig) : ExecuteOptions :=
  { temperature := cfg.temperature
    maxTokens := cfg.maxTokens
    stream := false
    model := cfg.model
    topP := 0
    frequencyPenalty := 0
    presencePenalty := 0
    stop := []
    metadata := none }

/-- Option application loop `for _, opt := range opts { opt(options) }`. -/
def applyOpts (cfg : OpenRouterConfig) (opts : List ExecuteOption) : ExecuteOptions :=
  opts.foldl (fun o f => f o) (defaultOptions cfg)

/-- Retry budget extraction (unnamed/part_007 lines 426-431): default 1,
overridden by an `int`-typed `retries` metadata entry. -/
def retriesOf (options : ExecuteOptions) : Int :=
  match options.metadata with
  | none => 1
  | some m =>
    match m.lookup "retries" with
    | some (MetaVal.int r) => r
    | _ => 1

/-- Result of a `Generate` call together with the effect counters the
spec reasons about: how many backend request attempts were made and how
many rate-limiter tokens were acquired. -/
structure GenResult where
  result : Except String Response
  attempts : Nat
  tokensAcquired : Nat
deriving Repr

/-- Option application, budget extraction, validation and the retry loop
of `Generate` (unnamed/part_007 lines 415-472), entered after the prompt
and rate-limit checks; `tokens` records the tokens already acquired. -/
def generateCore (cfg : OpenRouterConfig) (backend : Nat → Except String Response)
    (ctxCancelled : Nat → Bool) (opts : List ExecuteOption) (tokens : Nat) : GenResult :=
  let options := applyOpts cfg opts
  let retries := retriesOf options
  let inner : Except String Response × Nat :=
    if options.temperature < 0 ∨ options.temperature > 1 then
      (Except.error "invalid temperature: must be between 0 and 1", 0)
    else if options.maxTokens < 1 then
      (Except.error "invalid max tokens: must be greater than 0", 0)
    else
      retryLoop backend ctxCancelled 0 retries.toNat none
  { result := inner.1, attempts := inner.2, tokensAcquired := tokens }

/-- OpenRouterProvider.Generate (unnamed/part_007 lines 402-473).
`rlWaitErr` is the outcome of `RateLimiter.Wait(ctx)` (`none` = a token was
acquired), consulted only when a rate limiter is configured. -/
def Generate (cfg : OpenRouterConfig) (rlWaitErr : Option String)
    (backend : Nat → Except String Response) (ctxCancelled : Nat → Bool)
    (prompt : String) (opts : List ExecuteOption) : GenResult :=
  if prompt = "" then
    { result := Except.error "empty prompt", attempts := 0, tokensAcquired := 0 }
  else if cfg.rateLimiter then
    match rlWaitErr with
    | some e =>
      { result := Except.error ("rate limit exceeded: " ++ e), attempts := 0, tokensAcquired := 0 }
    | none => generateCore cfg backend ctxCancelled opts 1
  else
    generateCore cfg backend ctxCancelled opts 0

/-- Message mirrors `types.Message` (role, content), as used by the proxy
test suite and the API handler; the concrete struct lives outside `src/`
and is reconstructed from its uses and the spec data model. -/
structure ChatMessage where
  role : String
  content : String
deriving DecidableEq, Repr

/-- Choice mirrors `types.Choice` (index, message, finish_reason). -/
structure Choice where
  index : Nat
  message : ChatMessage
  finishReason : String
deriving DecidableEq, Repr

/-- ChatResponse mirrors `types.ChatResponse` (id, object, created, model,
choices, usage), reconstructed from its uses in `src/` and the spec data
model; `usage` is a plain struct whose zero value stands for absent. -/
structure ChatResponse where
  id : String
  object : String
  created : Int
  model : String
  choices : List Choice
  usage : Usage
deriving DecidableEq, Repr

/-- Adapter instance stored by the registry: its `Name()` plus an identity
tag `uid` standing for the Go pointer identity of the adapter value. -/
structure ProviderRef where
  name : String
  uid : Nat
deriving DecidableEq, Repr

/-- Service registry state (internal/tool/file_reader.go, `proxy.Service`):
the name-to-adapter map, modelled as an association list where the first
binding for a key wins (Go map lookup semantics). -/
structure Service where
  providers : List (String × ProviderRef)
deriving DecidableEq, Repr

/-- Service.RegisterProvider: refuse a duplicate name, otherwise insert. -/
def RegisterProvider (s : Service) (p : ProviderRef) : Except String Service :=
  match s.providers.lookup p.name with
  | some _ => Except.error ("provider " ++ p.name ++ " already registered")
  | none => Except.ok { providers := (p.name, p) :: s.providers }

/-- Service.GetProvider: lookup by name, error when absent. -/
def GetProvider (s : Service) (name : String) : Except String ProviderRef :=
  match s.providers.lookup name with
  | some p => Except.ok p
  | none => Except.error ("provider " ++ name ++ " not found")

/-- SSE frame written for one chunk by `Handler.handleStreamChat`
(internal/api/handler.go lines 96-107).  `enc` abstracts `json.Marshal`;
a marshalling failure (`none`) makes the handler skip the chunk. -/
def sseFrame (enc : ChatResponse → Option String) (c : ChatResponse) : String :=
  match enc c with
  | none => ""
  | some data => "data: " ++ data ++ "\n\n"

/-- Body written by `Handler.handleStreamChat` over the whole response
channel: the fold of the three `Write` calls per received chunk, in channel
order, starting from an empty body.  The loop ends when the channel closes
and the handler returns without writing anything further. -/
def handleStreamBody (enc : ChatResponse → Option String)
    (chunks : List ChatResponse) : String :=
  chunks.foldl
    (fun acc c =>
      match enc c with
      | none => acc
      | some data => acc ++ "data: " ++ data ++ "\n\n")
    ""

/-- Ordered concatenation of the per-chunk SSE frames. -/
def concatFrames (enc : ChatResponse → Option String) : List ChatResponse → String
  | [] => ""
  | c :: rest => sseFrame enc c ++ concatFrames enc rest

/-- Modelled from the spec: the client-facing stream body the spec
describes for `handleStreamChat` — the frames in channel order followed by
a literal terminator line `data: [DONE]` and a blank line.  (The spec
sentence: each event framed as `data: <json ChatResponse>`, terminated by a
literal `data: [DONE]` line.) -/
def sseBodySpec (enc : ChatResponse → Option String)
    (chunks : List ChatResponse) : String :=
  concatFrames enc chunks ++ "data: [DONE]\n\n"

/-- Go `strings.Split(s, " ")` on character lists: split at every space,
adjacent separators and boundary separators producing empty fields. -/
def splitSpaces : List Char → List (List Char)
  | [] => [[]]
  | c :: rest =>
    match splitSpaces rest with
    | [] => [[]]
    | w :: ws => if c = ' ' then [] :: w :: ws else (c :: w) :: ws

/-- Go `strings.Split(message, " ")` at the String level. -/
def goSplitSpace (s : String) : List String :=
  (splitSpaces s.data).map String.mk

/-- First choice content `resp.Choices[0].Message.Content`: the Go code
indexes unconditionally (it would panic on an empty slice; the mock
completion handler always supplies exactly one choice). -/
def firstChoiceContent (r : ChatResponse) : String :=
  match r.choices with
  | [] => ""
  | c :: _ => c.message.content

/-- One streaming chunk built by `MockProvider.StreamChat`
(unnamed/part_003 lines 583-604) for word number `p.1` with text `p.2`:
content is the word plus a trailing space, finish reason `stop` only on the
last word. -/
def mockChunk (resp : ChatResponse) (total : Nat) (p : Nat × String) : ChatResponse :=
  { id := resp.id ++ "-" ++ toString p.1
    object := "chat.completion.chunk"
    created := resp.created
    model := resp.model
    choices := [{ index := 0
                  message := { role := "assistant", content := p.2 ++ " " }
                  finishReason := if p.1 = total - 1 then "stop" else "" }]
    usage := { promptTokens := 0, completionTokens := 0, totalTokens := 0 } }

/-- Chunk sequence produced by `MockProvider.StreamChat` (unnamed/part_003
lines 563-613) when the context is never cancelled: split the base
response content on spaces and emit one chunk per word, in order. -/
def mockStreamChunks (resp : ChatResponse) : List ChatResponse :=
  let words := goSplitSpace (firstChoiceContent resp)
  words.enum.map (mockChunk resp words.length)

/-- Ordered concatenation of the chunk message contents, as accumulated by
the streaming test (`fullMessage.WriteString`). -/
def concatContents : List ChatResponse → String
  | [] => ""
  | c :: rest => firstChoiceContent c ++ concatContents rest

/-- Base response of `ProxyTestSuite.mockCompletionHandler`
(unnamed/part_003 lines 615-637); `created` abstracts `time.Now().Unix()`. -/
def mockResponse (created : Int) : ChatResponse :=
  { id := "mock-response-id"
    object := "chat.completion"
    created := created
    model := "mock"
    choices := [{ index := 0
                  message := { role := "assistant", content := "Hello! I am a mock response." }
                  finishReason := "stop" }]
    usage := { promptTokens := 10, completionTokens := 10, totalTokens := 20 } }

/-- Event on a stream producer's output channel. -/
inductive StreamEvent where
  | send (c : ChatResponse)
  | close
deriving DecidableEq, Repr

/-- Test for the close event. -/
def isCloseEvent : StreamEvent → Bool
  | StreamEvent.close => true
  | _ => false

/-- Number of channel-close events in a trace. -/
def closeCount (t : List StreamEvent) : Nat :=
  t.countP isCloseEvent

/-- Channel-event trace of the producer goroutine spawned by
`OpenRouterProvider.StreamChat` (unnamed/part_007 lines 331-358):
`chatResult` is the outcome of the inner `Chat` call, `ctxDoneAtSend`
whether the select observed cancellation instead of sending; the deferred
`close(responses)` runs on every exit path. -/
def openRouterStreamTrace (chatResult : Except String ChatResponse)
    (ctxDoneAtSend : Bool) : List StreamEvent :=
  (match chatResult with
   | Except.error _ => []
   | Except.ok resp => if ctxDoneAtSend then [] else [StreamEvent.send resp]) ++
  [StreamEvent.close]

/-- Channel-event trace of the normalizing goroutine spawned by
`Service.StreamChat` (internal/tool/file_reader.go lines 246-271):
forward every upstream chunk in order, then the deferred close runs. -/
def normalizerTrace (upstream : List ChatResponse) : List StreamEvent :=
  upstream.map StreamEvent.send ++ [StreamEvent.close]

/-! ## Helper lemmas -/

/-- Classification of a failure as transient at attempt `j`: the backend
errored, the context was not cancelled and the message is not
validation-class. -/
def transientAt (backend : Nat → Except String Response) (ctxC : Nat → Bool)
    (emsg : Nat → String) (j : Nat) : Prop :=
  backend j = Except.error (emsg j) ∧ ctxC j = false ∧ isValidationError (emsg j) = false

theorem retryLoop_zero (backend : Nat → Except String Response) (ctxC : Nat → Bool)
    (i : Nat) (lastErr : Option String) :
    retryLoop backend ctxC i 0 lastErr =
      (Except.error (allAttemptsFailedMsg lastErr), 0) := rfl

theorem retryLoop_succ (backend : Nat → Except String Response) (ctxC : Nat → Bool)
    (i rem : Nat) (lastErr : Option String) :
    retryLoop backend ctxC i (rem + 1) lastErr =
      match backend i with
      | Except.ok r => (Except.ok r, 1)
      | Except.error e =>
        if ctxC i || isValidationError e then (Except.error e, 1)
        else
          ((retryLoop backend ctxC (i + 1) rem (some e)).1,
           (retryLoop backend ctxC (i + 1) rem (some e)).2 + 1) := rfl

theorem retryLoop_ok_after_transient (backend : Nat → Except String Response)
    (ctxC : Nat → Bool) (r : Response) :
    ∀ (rem i : Nat) (lastErr : Option String),
      (∀ j, j < rem → ∃ e, backend (i + j) = Except.error e ∧ ctxC (i + j) = false ∧
        isValidationError e = false) →
      backend (i + rem) = Except.ok r →
      retryLoop backend ctxC i (rem + 1) lastErr = (Except.ok r, rem + 1) := by
  intro rem
  induction rem with
  | zero =>
    intro i lastErr _ hok
    simp only [Nat.add_zero] at hok
    rw [retryLoop_succ, hok]
  | succ m ih =>
    intro i lastErr hfail hok
    obtain ⟨e, he, hctx, hval⟩ := hfail 0 (Nat.succ_pos m)
    simp only [Nat.add_zero] at he hctx hval
    have hstep : retryLoop backend ctxC (i + 1) (m + 1) (some e) = (Except.ok r, m + 1) := by
      apply ih
      · intro j hj
        obtain ⟨e2, he2, hc2, hv2⟩ := hfail (j + 1) (Nat.succ_lt_succ hj)
        refine ⟨e2, ?_, ?_, hv2⟩
        · have : i + 1 + j = i + (j + 1) := by omega
          rw [this]; exact he2
        · have : i + 1 + j = i + (j + 1) := by omega
          rw [this]; exact hc2
      · have : i + 1 + m = i + (m + 1) := by omega
        rw [this]; exact hok
    rw [retryLoop_succ, he]
    simp [hctx, hval, hstep]

theorem retryLoop_all_fail (backend : Nat → Except String Response)
    (ctxC : Nat → Bool) (emsg : Nat → String) :
    ∀ (rem i : Nat) (lastErr : Option String),
      (∀ j, j ≤ rem → transientAt backend ctxC emsg (i + j)) →
      retryLoop backend ctxC i (rem + 1) lastErr =
        (Except.error ("all attempts failed: " ++ emsg (i + rem)), rem + 1) := by
  intro rem
  induction rem with
  | zero =>
    intro i lastErr hfail
    obtain ⟨he, hctx, hval⟩ := hfail 0 (Nat.le_refl 0)
    simp only [Nat.add_zero] at he hctx hval ⊢
    rw [retryLoop_succ, he]
    simp [hctx, hval, retryLoop_zero, allAttemptsFailedMsg]
  | succ m ih =>
    intro i lastErr hfail
    obtain ⟨he, hctx, hval⟩ := hfail 0 (Nat.zero_le _)
    simp only [Nat.add_zero] at he hctx hval
    have hstep := ih (i + 1) (some (emsg i)) (by
      intro j hj
      have h2 := hfail (j + 1) (Nat.succ_le_succ hj)
      have : i + 1 + j = i + (j + 1) := by omega
      rw [this]; exact h2)
    have harith : i + 1 + m = i + (m + 1) := by omega
    rw [harith] at hstep
    rw [retryLoop_succ, he]
    simp [hctx, hval, hstep]

theorem retryLoop_attempts_pos (backend : Nat → Except String Response)
    (ctxC : Nat → Bool) :
    ∀ (rem i : Nat) (lastErr : Option String), 1 ≤ rem →
      1 ≤ (retryLoop backend ctxC i rem lastErr).2 := by
  intro rem
  cases rem with
  | zero => intro i lastErr h; omega
  | succ m =>
    intro i lastErr _
    simp only [retryLoop]
    cases backend i with
    | ok r => simp
    | error e =>
      by_cases hc : (ctxC i || isValidationError e) = true
      · simp [hc]
      · simp [hc]

theorem generate_run (cfg : OpenRouterConfig) (rlWaitErr : Option String)
    (backend : Nat → Except String Response) (ctxC : Nat → Bool)
    (prompt : String) (opts : List ExecuteOption)
    (hp : prompt ≠ "") (hrl : cfg.rateLimiter = true → rlWaitErr = none) :
    Generate cfg rlWaitErr backend ctxC prompt opts =
      generateCore cfg backend ctxC opts (if cfg.rateLimiter then 1 else 0) := by
  unfold Generate
  rw [if_neg hp]
  cases h : cfg.rateLimiter with
  | true => rw [hrl h]; simp
  | false => simp

theorem generateCore_valid (cfg : OpenRouterConfig)
    (backend : Nat → Except String Response) (ctxC : Nat → Bool)
    (opts : List ExecuteOption) (tokens : Nat)
    (hval : 0 ≤ (applyOpts cfg opts).temperature ∧ (applyOpts cfg opts).temperature ≤ 1 ∧
      1 ≤ (applyOpts cfg opts).maxTokens) :
    generateCore cfg backend ctxC opts tokens =
      { result := (retryLoop backend ctxC 0 (retriesOf (applyOpts cfg opts)).toNat none).1
        attempts := (retryLoop backend ctxC 0 (retriesOf (applyOpts cfg opts)).toNat none).2
        tokensAcquired := tokens } := by
  obtain ⟨h0, h1, hmt⟩ := hval
  simp only [generateCore]
  rw [if_neg (by push_neg; exact ⟨h0, h1⟩)]
  rw [if_neg (not_lt.mpr hmt)]

/-! ## Claim theorems: the retry / rate-limit discipline of Generate -/

/-- C1: for every retry budget `N ≥ 1` taken from the retries metadata
(default 1), if the first `N - 1` backend invocations fail transiently
(context not cancelled, message not validation-class) and the `N`-th
succeeds, then `Generate` returns that success value and invokes the
backend exactly `N` times. -/
theorem generate_retry_success
    (cfg : OpenRouterConfig) (rlWaitErr : Option String)
    (backend : Nat → Except String Response) (ctxC : Nat → Bool)
    (prompt : String) (opts : List ExecuteOption) (N : Nat) (r : Response)
    (hp : prompt ≠ "")
    (hrl : cfg.rateLimiter = true → rlWaitErr = none)
    (hval : 0 ≤ (applyOpts cfg opts).temperature ∧ (applyOpts cfg opts).temperature ≤ 1 ∧
      1 ≤ (applyOpts cfg opts).maxTokens)
    (hret : retriesOf (applyOpts cfg opts) = (N : Int))
    (hN : 1 ≤ N)
    (hfail : ∀ j, j + 1 < N → ∃ e, backend j = Except.error e ∧ ctxC j = false ∧
      isValidationError e = false)
    (hok : backend (N - 1) = Except.ok r) :
    (Generate cfg rlWaitErr backend ctxC prompt opts).result = Except.ok r ∧
    (Generate cfg rlWaitErr backend ctxC prompt opts).attempts = N := by
  obtain ⟨m, rfl⟩ : ∃ m, N = m + 1 := ⟨N - 1, by omega⟩
  have hloop : retryLoop backend ctxC 0 (m + 1) none = (Except.ok r, m + 1) := by
    apply retryLoop_ok_after_transient
    · intro j hj
      obtain ⟨e, he, hc, hv⟩ := hfail j (by omega)
      exact ⟨e, by simpa using he, by simpa using hc, hv⟩
    · simpa using hok
  rw [generate_run cfg rlWaitErr backend ctxC prompt opts hp hrl,
    generateCore_valid cfg backend ctxC opts _ hval, hret]
  simp [Int.toNat_natCast, hloop]

/-- Sample configuration used by the concrete witnesses: a configured rate
limiter and in-range static options. -/
def sampleCfg : OpenRouterConfig :=
  { apiKey := "k", model := "m", maxTokens := 100, temperature := 0, rateLimiter := true }

/-- Backend behaviour for the C1 witness: two transient timeouts, then
success. -/
def witBackend : Nat → Except String Response :=
  fun i =>
    if i < 2 then Except.error "timeout"
    else Except.ok
      { content := "ok"
        usage := { promptTokens := 1, completionTokens := 2, totalTokens := 3 }
        timestamp := 5, finishReason := "stop" }

/-- C1 witness: with a retry budget of 3, two transient failures and a
third successful call, `Generate` returns the success and makes exactly 3
attempts. -/
theorem generate_retry_success_witness :
    (Generate sampleCfg none witBackend (fun _ => false) "hi" [withRetries 3]).result =
      Except.ok
        { content := "ok"
          usage := { promptTokens := 1, completionTokens := 2, totalTokens := 3 }
          timestamp := 5, finishReason := "stop" } ∧
    (Generate sampleCfg none witBackend (fun _ => false) "hi" [withRetries 3]).attempts = 3 :=
  generate_retry_success sampleCfg none witBackend (fun _ => false) "hi" [withRetries 3] 3 _
    (by decide) (fun _ => rfl) (by decide) (by decide) (by decide)
    (by
      intro j hj
      refine ⟨"timeout", ?_, rfl, by decide⟩
      have hlt : j < 2 := by omega
      simp [witBackend, hlt])
    rfl

/-- C2: if the first backend attempt fails and the context is cancelled or
the error is validation-class, `Generate` surfaces that error immediately
after exactly one backend attempt, whatever the configured budget. -/
theorem generate_stops_on_fatal_first
    (cfg : OpenRouterConfig) (rlWaitErr : Option String)
    (backend : Nat → Except String Response) (ctxC : Nat → Bool)
    (prompt : String) (opts : List ExecuteOption) (N : Nat) (e : String)
    (hp : prompt ≠ "")
    (hrl : cfg.rateLimiter = true → rlWaitErr = none)
    (hval : 0 ≤ (applyOpts cfg opts).temperature ∧ (applyOpts cfg opts).temperature ≤ 1 ∧
      1 ≤ (applyOpts cfg opts).maxTokens)
    (hret : retriesOf (applyOpts cfg opts) = (N : Int))
    (hN : 1 ≤ N)
    (hb : backend 0 = Except.error e)
    (hfat : ctxC 0 = true ∨ isValidationError e = true) :
    (Generate cfg rlWaitErr backend ctxC prompt opts).result = Except.error e ∧
    (Generate cfg rlWaitErr backend ctxC prompt opts).attempts = 1 := by
  obtain ⟨m, rfl⟩ : ∃ m, N = m + 1 := ⟨N - 1, by omega⟩
  have hcond : (ctxC 0 || isValidationError e) = true := by
    rcases hfat with h | h <;> simp [h]
  have hloop : retryLoop backend ctxC 0 (m + 1) none = (Except.error e, 1) := by
    rw [retryLoop_succ, hb]
    simp [hcond]
  rw [generate_run cfg rlWaitErr backend ctxC prompt opts hp hrl,
    generateCore_valid cfg backend ctxC opts _ hval, hret]
  simp [Int.toNat_natCast, hloop]

/-- C2 witness: a first-attempt validation error with a budget of 5 is
surfaced after exactly one attempt. -/
theorem generate_stops_on_fatal_first_witness :
    (Generate sampleCfg none (fun _ => Except.error "invalid model request")
      (fun _ => false) "hi" [withRetries 5]).result =
        Except.error "invalid model request" ∧
    (Generate sampleCfg none (fun _ => Except.error "invalid model request")
      (fun _ => false) "hi" [withRetries 5]).attempts = 1 :=
  generate_stops_on_fatal_first sampleCfg none (fun _ => Except.error "invalid model request")
    (fun _ => false) "hi" [withRetries 5] 5 "invalid model request"
    (by decide) (fun _ => rfl) (by decide) (by decide) (by decide) rfl
    (Or.inr (by decide))

/-- C3: if every one of the `N` attempts fails transiently, `Generate`
returns the all-attempts-failed error wrapping the last attempt error,
and never a success value. -/
theorem generate_all_attempts_fail
    (cfg : OpenRouterConfig) (rlWaitErr : Option String)
    (backend : Nat → Except String Response) (ctxC : Nat → Bool)
    (prompt : String) (opts : List ExecuteOption) (N : Nat) (emsg : Nat → String)
    (hp : prompt ≠ "")
    (hrl : cfg.rateLimiter = true → rlWaitErr = none)
    (hval : 0 ≤ (applyOpts cfg opts).temperature ∧ (applyOpts cfg opts).temperature ≤ 1 ∧
      1 ≤ (applyOpts cfg opts).maxTokens)
    (hret : retriesOf (applyOpts cfg opts) = (N : Int))
    (hN : 1 ≤ N)
    (hfail : ∀ j, j < N → backend j = Except.error (emsg j) ∧ ctxC j = false ∧
      isValidationError (emsg j) = false) :
    (Generate cfg rlWaitErr backend ctxC prompt opts).result =
      Except.error ("all attempts failed: " ++ emsg (N - 1)) ∧
    (Generate cfg rlWaitErr backend ctxC prompt opts).attempts = N ∧
    ∀ r : Response, (Generate cfg rlWaitErr backend ctxC prompt opts).result ≠ Except.ok r := by
  obtain ⟨m, rfl⟩ : ∃ m, N = m + 1 := ⟨N - 1, by omega⟩
  have hloop := retryLoop_all_fail backend ctxC emsg m 0 none (by
    intro j hj
    have h2 := hfail j (by omega)
    unfold transientAt
    simpa using h2)
  simp only [Nat.zero_add] at hloop
  rw [generate_run cfg rlWaitErr backend ctxC prompt opts hp hrl,
    generateCore_valid cfg backend ctxC opts _ hval, hret]
  simp [Int.toNat_natCast, hloop]

/-- C3 witness: three transient failures with a budget of 3 yield the
wrapped last error after exactly 3 attempts. -/
theorem generate_all_attempts_fail_witness :
    (Generate sampleCfg none (fun i => Except.error ("timeout " ++ toString i))
      (fun _ => false) "hi" [withRetries 3]).result =
        Except.error ("all attempts failed: " ++ ("timeout " ++ toString 2)) ∧
    (Generate sampleCfg none (fun i => Except.error ("timeout " ++ toString i))
      (fun _ => false) "hi" [withRetries 3]).attempts = 3 ∧
    ∀ r : Response,
      (Generate sampleCfg none (fun i => Except.error ("timeout " ++ toString i))
        (fun _ => false) "hi" [withRetries 3]).result ≠ Except.ok r :=
  generate_all_attempts_fail sampleCfg none (fun i => Except.error ("timeout " ++ toString i))
    (fun _ => false) "hi" [withRetries 3] 3 (fun i => "timeout " ++ toString i)
    (by decide) (fun _ => rfl) (by decide) (by decide) (by decide)
    (by
      intro j hj
      refine ⟨rfl, rfl, ?_⟩
      interval_cases j <;> decide)

/-- C4: an empty prompt fails with the empty-prompt error before the
rate-limiter wait and before any backend attempt: zero attempts and zero
tokens, for every options list and every backend behaviour. -/
theorem generate_empty_prompt (cfg : OpenRouterConfig) (rlWaitErr : Option String)
    (backend : Nat → Except String Response) (ctxC : Nat → Bool)
    (opts : List ExecuteOption) :
    Generate cfg rlWaitErr backend ctxC "" opts =
      { result := Except.error "empty prompt", attempts := 0, tokensAcquired := 0 } := rfl

/-- C5 counterexample: with a configured rate limiter and a retry budget
of 2, a call that performs 2 backend attempts acquires only 1 token,
refuting one-token-per-attempt. -/
theorem rate_limit_token_per_attempt_cex :
    (Generate sampleCfg none (fun _ => Except.error "connection reset")
      (fun _ => false) "hi" [withRetries 2]).attempts = 2 ∧
    (Generate sampleCfg none (fun _ => Except.error "connection reset")
      (fun _ => false) "hi" [withRetries 2]).tokensAcquired = 1 ∧
    (1 : Nat) ≠ 2 := by
  refine ⟨by decide, by decide, by decide⟩

/-- C5 amended: when a rate limiter is configured and its wait succeeds,
a `Generate` call with a non-empty prompt acquires exactly one token in
total, before the first backend attempt, regardless of how many attempts
are then performed. -/
theorem generate_one_token_when_limited (cfg : OpenRouterConfig) (rlWaitErr : Option String)
    (backend : Nat → Except String Response) (ctxC : Nat → Bool)
    (prompt : String) (opts : List ExecuteOption)
    (hp : prompt ≠ "") (hlim : cfg.rateLimiter = true) (hw : rlWaitErr = none) :
    (Generate cfg rlWaitErr backend ctxC prompt opts).tokensAcquired = 1 := by
  subst hw
  unfold Generate
  rw [if_neg hp, hlim]
  simp [generateCore]

/-- C5 amended witness: the single-token theorem applied at the concrete
counterexample inputs. -/
theorem generate_one_token_when_limited_witness :
    (Generate sampleCfg none (fun _ => Except.error "connection reset")
      (fun _ => false) "hi" [withRetries 7]).tokensAcquired = 1 :=
  generate_one_token_when_limited sampleCfg none (fun _ => Except.error "connection reset")
    (fun _ => false) "hi" [withRetries 7] (by decide) rfl rfl

/-- C10: after a failed attempt with budget remaining, the retry loop
stops with that error and exactly one further attempt if and only if the
context is cancelled or the message contains `invalid` or `empty prompt`;
in particular a transient failure whose message merely contains `invalid`
is never retried. -/
theorem retry_fatal_classification_iff (backend : Nat → Except String Response)
    (ctxC : Nat → Bool) (i rem : Nat) (lastErr : Option String) (e : String)
    (hb : backend i = Except.error e) (hrem : 2 ≤ rem) :
    retryLoop backend ctxC i rem lastErr = (Except.error e, 1) ↔
      (ctxC i = true ∨ containsSubstr e "invalid" = true ∨
        containsSubstr e "empty prompt" = true) := by
  obtain ⟨m, rfl⟩ : ∃ m, rem = m + 1 + 1 := ⟨rem - 2, by omega⟩
  have key : retryLoop backend ctxC i (m + 1 + 1) lastErr = (Except.error e, 1) ↔
      (ctxC i || isValidationError e) = true := by
    cases hc : (ctxC i || isValidationError e) with
    | true =>
      rw [retryLoop_succ, hb]
      simp [hc]
    | false =>
      rw [retryLoop_succ, hb]
      simp only [hc, Bool.false_eq_true, if_false]
      constructor
      · intro hcontra
        have hpos := retryLoop_attempts_pos backend ctxC (m + 1) (i + 1) (some e)
          (Nat.succ_le_succ (Nat.zero_le m))
        have hsnd := congrArg Prod.snd hcontra
        simp at hsnd
        omega
      · intro hcontra
        simp at hcontra
  rw [key]
  unfold isValidationError
  constructor
  · intro h
    rcases Bool.or_eq_true_iff.mp h with h1 | h2
    · exact Or.inl h1
    · rcases Bool.or_eq_true_iff.mp h2 with h3 | h4
      · exact Or.inr (Or.inl h3)
      · exact Or.inr (Or.inr h4)
  · intro h
    rcases h with h1 | h2 | h3
    · simp [h1]
    · simp [h2]
    · simp [h3]

/-- C10 witness: a failure whose message contains `invalid` makes the
loop, run with remaining budget 3, stop immediately with that error and a
single attempt. -/
theorem retry_fatal_classification_iff_witness :
    retryLoop (fun _ => Except.error "invalid model request") (fun _ => false)
      0 3 none = (Except.error "invalid model request", 1) :=
  (retry_fatal_classification_iff (fun _ => Except.error "invalid model request")
    (fun _ => false) 0 3 none "invalid model request" rfl (by decide)).mpr
    (Or.inr (Or.inl (by decide)))

/-! ## Claim theorems: the provider registry -/

/-- C6: registering an adapter under a fresh name succeeds, a subsequent
lookup of that name returns the very adapter that was registered, and a
second registration under the same name fails with the duplicate-provider
error. -/
theorem register_then_lookup (s : Service) (p : ProviderRef)
    (h : s.providers.lookup p.name = none) :
    ∃ s2, RegisterProvider s p = Except.ok s2 ∧
      GetProvider s2 p.name = Except.ok p ∧
      ∀ q : ProviderRef, q.name = p.name →
        RegisterProvider s2 q =
          Except.error ("provider " ++ q.name ++ " already registered") := by
  refine ⟨{ providers := (p.name, p) :: s.providers }, ?_, ?_, ?_⟩
  · unfold RegisterProvider
    rw [h]
  · unfold GetProvider
    simp [List.lookup]
  · intro q hq
    unfold RegisterProvider
    rw [hq]
    simp [List.lookup]

/-- C6 witness: registering `mock` into the empty registry, looking it up,
and refusing the duplicate. -/
theorem register_then_lookup_witness :
    ∃ s2, RegisterProvider { providers := [] } { name := "mock", uid := 0 } = Except.ok s2 ∧
      GetProvider s2 "mock" = Except.ok { name := "mock", uid := 0 } ∧
      ∀ q : ProviderRef, q.name = "mock" →
        RegisterProvider s2 q =
          Except.error ("provider " ++ q.name ++ " already registered") :=
  register_then_lookup { providers := [] } { name := "mock", uid := 0 } rfl

/-! ## Claim theorems: SSE streaming -/

theorem foldl_frames_eq (enc : ChatResponse → Option String) :
    ∀ (chunks : List ChatResponse) (acc : String),
      List.foldl
        (fun acc c =>
          match enc c with
          | none => acc
          | some data => acc ++ "data: " ++ data ++ "\n\n")
        acc chunks = acc ++ concatFrames enc chunks := by
  intro chunks
  induction chunks with
  | nil => intro acc; simp [concatFrames]
  | cons c rest ih =>
    intro acc
    simp only [List.foldl, concatFrames]
    cases h : enc c with
    | none => rw [ih]; simp [sseFrame, h, String.append_assoc]
    | some data => rw [ih]; simp [sseFrame, h, String.append_assoc]

/-- C7 counterexample: an empty response channel produces an empty body,
not the spec body ending in the `data: [DONE]` terminator line; the
handler never writes the terminator. -/
theorem handler_done_terminator_cex :
    handleStreamBody (fun _ => none) [] ≠ sseBodySpec (fun _ => none) [] := by
  decide

/-- C7 amended: the streaming response body is exactly the concatenation
of the `data: <json>` + blank-line frames in channel arrival order
(chunks whose encoding fails are skipped); no terminator of any kind is
written after the channel closes. -/
theorem handleStreamBody_frames_only (enc : ChatResponse → Option String)
    (chunks : List ChatResponse) :
    handleStreamBody enc chunks = concatFrames enc chunks := by
  unfold handleStreamBody
  rw [foldl_frames_eq]
  exact String.empty_append _

/-! ## Claim theorems: mock streaming concatenation -/

theorem splitSpaces_ne_nil (cs : List Char) : splitSpaces cs ≠ [] := by
  cases cs with
  | nil => simp [splitSpaces]
  | cons c rest =>
    simp only [splitSpaces]
    cases splitSpaces rest with
    | nil => simp
    | cons w ws =>
      by_cases hc : c = ' ' <;> simp [hc]

theorem splitSpaces_flatten (cs : List Char) :
    ((splitSpaces cs).map (fun w => w ++ [' '])).flatten = cs ++ [' '] := by
  induction cs with
  | nil => rfl
  | cons c rest ih =>
    cases hs : splitSpaces rest with
    | nil => exact absurd hs (splitSpaces_ne_nil rest)
    | cons w ws =>
      rw [hs] at ih
      simp only [List.map_cons, List.flatten_cons] at ih
      simp only [splitSpaces, hs]
      by_cases hc : c = ' '
      · subst hc
        rw [if_pos rfl]
        simp only [List.map_cons, List.flatten_cons, List.nil_append, List.cons_append]
        exact congrArg (fun t => ' ' :: t) ih
      · rw [if_neg hc]
        simp only [List.map_cons, List.flatten_cons, List.cons_append]
        exact congrArg (fun t => c :: t) ih

/-- Space-separated concatenation of a word list, as accumulated by the
streaming test. -/
def joinSp : List String → String
  | [] => ""
  | w :: ws => (w ++ " ") ++ joinSp ws

theorem concatContents_enumFrom (resp : ChatResponse) (total : Nat) :
    ∀ (ws : List String) (k : Nat),
      concatContents ((List.enumFrom k ws).map (mockChunk resp total)) = joinSp ws := by
  intro ws
  induction ws with
  | nil => intro k; rfl
  | cons w rest ih =>
    intro k
    simp only [List.enumFrom, List.map_cons, concatContents, joinSp]
    rw [ih (k + 1)]
    rfl

theorem joinSp_map_mk :
    ∀ ws : List (List Char),
      joinSp (ws.map String.mk) = String.mk ((ws.map (fun w => w ++ [' '])).flatten) := by
  intro ws
  induction ws with
  | nil => rfl
  | cons w rest ih =>
    simp only [List.map_cons, joinSp, List.flatten_cons, ih]
    rfl

/-- C8 counterexample: for the deterministic mock backend, the
concatenation of the streamed chunk contents differs from the
non-streaming message content (it carries a trailing space), refuting
exact equality. -/
theorem mock_stream_concat_cex :
    concatContents (mockStreamChunks (mockResponse 0)) ≠
      firstChoiceContent (mockResponse 0) := by
  decide

/-- C8 amended: for every base response, the concatenation of the mock
streaming chunk contents equals the non-streaming message content with a
single trailing space appended (each word is emitted as `word ++ " "`). -/
theorem mock_stream_concat_trailing_space (resp : ChatResponse) :
    concatContents (mockStreamChunks resp) = firstChoiceContent resp ++ " " := by
  unfold mockStreamChunks
  simp only [List.enum]
  rw [concatContents_enumFrom]
  unfold goSplitSpace
  rw [joinSp_map_mk, splitSpaces_flatten]
  cases h : firstChoiceContent resp with
  | mk d => rfl

/-! ## Claim theorems: stream producer channel discipline -/

/-- C9: on every exit path — backend error, context cancellation, or
successful completion — both stream producers (the OpenRouter one and the
proxy normalizer) emit a trace whose unique channel-close event is the
last event: the channel is closed exactly once and nothing is sent after
the close. -/
theorem stream_producers_close_once (chatResult : Except String ChatResponse)
    (ctxDone : Bool) (upstream : List ChatResponse) :
    closeCount (openRouterStreamTrace chatResult ctxDone) = 1 ∧
    (openRouterStreamTrace chatResult ctxDone).getLast? = some StreamEvent.close ∧
    closeCount (normalizerTrace upstream) = 1 ∧
    (normalizerTrace upstream).getLast? = some StreamEvent.close := by
  have hmap : ∀ us : List ChatResponse,
      (us.map StreamEvent.send).countP isCloseEvent = 0 := by
    intro us
    induction us with
    | nil => rfl
    | cons c rest ih => simp [List.countP_cons, isCloseEvent, ih]
  refine ⟨?_, ?_, ?_, ?_⟩
  · unfold openRouterStreamTrace closeCount
    cases chatResult with
    | error e => simp [List.countP_cons, isCloseEvent]
    | ok r =>
      cases ctxDone <;>
        simp [List.countP_append, List.countP_cons, isCloseEvent]
  · unfold openRouterStreamTrace
    cases chatResult with
    | error e => simp
    | ok r => cases ctxDone <;> simp [List.getLast?_concat]
  · unfold normalizerTrace closeCount
    rw [List.countP_append, hmap]
    simp [List.countP_cons, isCloseEvent]
  · unfold normalizerTrace
    simp [List.getLast?_concat]

end PepperGo
